import Mathlib

/-!
Verification of the bulk data collection engine and client-side result cache
of the `gps_operation_tool` repository.

The development shallowly embeds the TypeScript source:

* `TwitterServiceV2.throttleRequest` (the throttle gate),
* `TwitterServiceV2.retryWithIntelligentBackoff` (the retry policy),
* `TwitterServiceV2.maximizeUserTweetCollection` (the paginated collector),
* `MaximizedTwitterCache.setAccountData` / `performIntelligentCleanup` /
  `getAllData` / `getAccountData` / `clear` (the cache store and eviction
  policy),

all from `src/lib/cache-v2.ts`.  Machine numbers are embedded as `Nat`,
`Int` and `Rat` (the score arithmetic of the eviction policy is exact
rational arithmetic; the JavaScript source performs the same operations
on IEEE doubles whose values are far below the precision limit for every
input considered here).  Timestamps are milliseconds.  Asynchronous
sleeps are recorded as data (wake-up times, delay lists) rather than
performed.
-/

namespace GpsOp

/-! ### Throttle gate (`TwitterServiceV2.throttleRequest`)

The service keeps `requestCount` and `windowStartTime` (`0` doubles as
the "unset" sentinel, exactly as in the source).  `throttleRequest`
takes the current time `now = Date.now()`, possibly resets the
fifteen-minute window, possibly sleeps until the window is over, bumps
the counter and returns.  The embedding returns the new state together
with the completion time of the call (equal to `now` when no sleep
happens, and to the wake-up instant after the `timeRemaining + 1000`
sleep otherwise; the post-sleep `Date.now()` is that wake-up instant).
-/

/-- Constant `MAX_REQUESTS_PER_15_MINUTES` of `TwitterServiceV2`. -/
def maxRequestsPerWindow : Nat := 50

/-- Constant `fifteenMinutes` used by `throttleRequest` (15 minutes in ms). -/
def windowDurationMs : Nat := 15 * 60 * 1000

/-- Mutable state of the throttle gate: `requestCount` and
`windowStartTime` of `TwitterServiceV2` (`windowStartTime = 0` means
"not yet initialized", as in the source). -/
structure ThrottleState where
  requestCount : Nat := 0
  windowStartTime : Nat := 0
deriving DecidableEq, Repr

/-- Shallow embedding of `TwitterServiceV2.throttleRequest`.  Returns the
state after the call and the time at which the call completes (the
acquisition instant observed by the caller). -/
def throttleRequest (s : ThrottleState) (now : Nat) : ThrottleState × Nat :=
  -- `if (this.windowStartTime === 0) this.windowStartTime = now`
  let ws0 := if s.windowStartTime = 0 then now else s.windowStartTime
  -- `if (now - this.windowStartTime >= fifteenMinutes) { requestCount = 0; windowStartTime = now }`
  let c1 := if now - ws0 ≥ windowDurationMs then 0 else s.requestCount
  let ws1 := if now - ws0 ≥ windowDurationMs then now else ws0
  if c1 ≥ maxRequestsPerWindow then
    -- `timeRemaining = fifteenMinutes - (now - windowStartTime)`;
    -- `await sleep(timeRemaining + 1000)`; `requestCount = 0`;
    -- `windowStartTime = Date.now()`; then `requestCount++`.
    let wake := now + (windowDurationMs - (now - ws1)) + 1000
    ({ requestCount := 1, windowStartTime := wake }, wake)
  else
    ({ requestCount := c1 + 1, windowStartTime := ws1 }, now)

/-- Runs a sequence of `throttleRequest` calls at the given call times,
returning the final state and the list of completion times. -/
def runThrottle (s : ThrottleState) : List Nat → ThrottleState × List Nat
  | [] => (s, [])
  | t :: ts =>
      let p := throttleRequest s t
      let q := runThrottle p.1 ts
      (q.1, p.2 :: q.2)

/-- States observed by callers after each `throttleRequest` call of a
call-time sequence. -/
def runThrottleStates (s : ThrottleState) : List Nat → List ThrottleState
  | [] => []
  | t :: ts =>
      let s' := (throttleRequest s t).1
      s' :: runThrottleStates s' ts

/-! ### Retry policy (`TwitterServiceV2.retryWithIntelligentBackoff`)

An operation is embedded as a function from the (1-based) attempt number
to an `Except` value; errors carry the optional numeric `code` field the
source inspects and a `message`.  The embedding returns the final
outcome together with the number of invocations of the operation and the
list of backoff sleeps performed between attempts.
-/

/-- Error value thrown by an upstream operation: the `code` field the
retry policy classifies on (absent for generic errors) and the message. -/
structure TwError where
  code : Option Nat
  message : String
deriving DecidableEq, Repr

/-- Observable trace of one `retryWithIntelligentBackoff` run: the
returned value or raised error, how many times the operation was
invoked, and the sleeps (ms) between attempts. -/
structure RetryTrace (α : Type) where
  result : Except TwError α
  invocations : Nat
  delays : List Nat
deriving Repr

/-- Error thrown by the trailing `throw lastError` when the attempt loop
never runs (`maxRetries = 0`): in JavaScript `lastError` is still
`undefined` there. -/
def undefinedError : TwError := ⟨none, "undefined"⟩

/-- Loop of `retryWithIntelligentBackoff`.  `remaining` counts the
attempts still allowed including the current one (`maxRetries - attempt
+ 1` at every call), so the recursion is structural; all branch tests
mirror the source (`error.code === 429`, `=== 401 || === 403`,
`=== 404`, otherwise linear backoff `2000 * attempt`). -/
def retryAux {α : Type} (op : Nat → Except TwError α) (maxRetries : Nat) :
    Nat → Nat → TwError → Nat → List Nat → RetryTrace α
  | 0, _, lastErr, inv, delays => ⟨.error lastErr, inv, delays⟩
  | r + 1, attempt, _, inv, delays =>
      match op attempt with
      | .ok v => ⟨.ok v, inv + 1, delays⟩
      | .error e =>
          if e.code = some 429 then
            if attempt < maxRetries then
              retryAux op maxRetries r (attempt + 1) e (inv + 1) (delays ++ [3000])
            else ⟨.error e, inv + 1, delays⟩
          else if e.code = some 401 ∨ e.code = some 403 then ⟨.error e, inv + 1, delays⟩
          else if e.code = some 404 then ⟨.error e, inv + 1, delays⟩
          else if attempt < maxRetries then
            retryAux op maxRetries r (attempt + 1) e (inv + 1) (delays ++ [2000 * attempt])
          else ⟨.error e, inv + 1, delays⟩

/-- Shallow embedding of `TwitterServiceV2.retryWithIntelligentBackoff`
(the `operationName` parameter of the source is used only in console
logging and does not influence the returned/raised values, so it is not
a parameter of the embedding). -/
def retryWithIntelligentBackoff {α : Type} (op : Nat → Except TwError α)
    (maxRetries : Nat := 2) : RetryTrace α :=
  retryAux op maxRetries maxRetries 1 undefinedError 0 []

/-! ### Paginated collector (`TwitterServiceV2.maximizeUserTweetCollection`)

The collection loop performs one upstream fetch per iteration (throttle
plus retry-wrapped `userTimeline` call).  The environment is embedded as
a list of `FetchOutcome`s: the result that surfaces from the retry
policy at each iteration, either a page or a raised classified error.
The loop consumes at most one outcome per iteration; every theorem below
supplies enough outcomes for the run it describes.  Tweets keep the
fields the collector reads (`id`, `created_at` in ms,
`attachments.media_keys`); fields that are merely copied through
(`text`, `public_metrics`, …) are elided.  The per-run constants
`maxPages = 200`, `targetTweetCount = 15000`, `maxEmptyPages = 3` are
gathered in a configuration record with those defaults. -/

/-- Collection-loop constants of `maximizeUserTweetCollection`, with the
source's literal values as defaults. -/
structure CollectConfig where
  maxPages : Nat := 200
  targetTweetCount : Nat := 15000
  maxEmptyPages : Nat := 3
deriving DecidableEq, Repr

/-- Raw tweet as returned by the upstream page fetch (fields the
collector inspects). -/
structure Tweet where
  id : String
  created_at : Int
  attachments : Option (List String) := none
deriving DecidableEq, Repr

/-- Media object from a page's `includes.media` (fields the collector
uses to resolve attachment keys). -/
structure MediaItem where
  media_key : String
  url : Option String := none
deriving DecidableEq, Repr

/-- Outcome of one loop iteration's page fetch after the retry policy:
either a page (`response.data.data`, `response.includes.media`,
`response.data.meta.next_token`) or the error that surfaced from the
exhausted retry. -/
inductive FetchOutcome where
  | success (items : List Tweet) (media : List MediaItem) (nextToken : Option String)
  | failure (code : Option Nat) (msg : String)
deriving DecidableEq, Repr

/-- Local mutable state of the collection loop, plus two pieces of
instrumentation that make the run observable: `fetchCalls` counts the
page-fetch attempts performed, and `sleeps` records the cooldown sleeps
(ms) the loop performs. -/
structure CollectState where
  allTweets : List Tweet := []
  allMedia : List MediaItem := []
  errors : List String := []
  nextToken : Option String := none
  pagesProcessed : Nat := 0
  rateLimitHits : Nat := 0
  hasMoreData : Bool := false
  shouldStop : Bool := false
  consecutiveEmptyPages : Nat := 0
  fetchCalls : Nat := 0
  sleeps : List Nat := []
deriving DecidableEq, Repr

/-- Error string pushed on a rate limit:
`Rate limit on page ${pagesProcessed + 1}`. -/
def rateLimitErr (page : Nat) : String :=
  "Rate limit on page " ++ toString page

/-- Error string pushed on any other fetch error:
`Page ${pagesProcessed + 1}: ${error.message}`. -/
def pageErr (page : Nat) (msg : String) : String :=
  "Page " ++ toString page ++ ": " ++ msg

/-- One iteration of the collection loop's body (the inner
`try`/`catch`): consumes the iteration's fetch outcome and returns the
new state together with `true` when the body ended in `break`. -/
def collectStep (cfg : CollectConfig) (s : CollectState) (o : FetchOutcome) :
    CollectState × Bool :=
  let s := { s with fetchCalls := s.fetchCalls + 1 }
  match o with
  | .success items media tok =>
      if 0 < items.length then
        -- `allTweets.push(...); consecutiveEmptyPages = 0;`
        let s := { s with allTweets := s.allTweets ++ items, consecutiveEmptyPages := 0 }
        -- `if (allTweets.length >= targetTweetCount) { shouldStop = true; break; }`
        if cfg.targetTweetCount ≤ s.allTweets.length then
          ({ s with shouldStop := true }, true)
        else
          let s := if 0 < media.length then { s with allMedia := s.allMedia ++ media } else s
          ({ s with nextToken := tok, hasMoreData := tok.isSome,
                    pagesProcessed := s.pagesProcessed + 1 }, false)
      else
        -- `consecutiveEmptyPages++`; stop after `maxEmptyPages` in a row.
        let s := { s with consecutiveEmptyPages := s.consecutiveEmptyPages + 1 }
        if cfg.maxEmptyPages ≤ s.consecutiveEmptyPages then
          ({ s with shouldStop := true }, true)
        else
          let s := if 0 < media.length then { s with allMedia := s.allMedia ++ media } else s
          ({ s with nextToken := tok, hasMoreData := tok.isSome,
                    pagesProcessed := s.pagesProcessed + 1 }, false)
  | .failure code msg =>
      if code = some 429 then
        -- `rateLimitHits++; errors.push(...)`; with data: stop; without:
        -- `await sleep(5000); continue`.
        let s := { s with rateLimitHits := s.rateLimitHits + 1,
                          errors := s.errors ++ [rateLimitErr (s.pagesProcessed + 1)] }
        if 0 < s.allTweets.length then ({ s with shouldStop := true }, true)
        else ({ s with sleeps := s.sleeps ++ [5000] }, false)
      else
        -- `errors.push(...)`; with data: `shouldStop = true; break`;
        -- without: plain `break`.
        let s := { s with errors := s.errors ++ [pageErr (s.pagesProcessed + 1) msg] }
        if 0 < s.allTweets.length then ({ s with shouldStop := true }, true)
        else (s, true)

/-- Guard of the `do … while` loop:
`nextToken && pagesProcessed < maxPages && !shouldStop`. -/
def loopCond (cfg : CollectConfig) (s : CollectState) : Bool :=
  s.nextToken.isSome && decide (s.pagesProcessed < cfg.maxPages) && !s.shouldStop

/-- Runs the collection loop from state `s`, consuming one fetch outcome
per iteration.  Returns the final state and `true` when the loop is
still live (would run another iteration if a further outcome arrived) —
`false` means the loop terminated by `break` or by its guard. -/
def collectRun (cfg : CollectConfig) (s : CollectState) :
    List FetchOutcome → CollectState × Bool
  | [] => (s, true)
  | o :: rest =>
      let p := collectStep cfg s o
      if p.2 then (p.1, false)
      else if loopCond cfg p.1 then collectRun cfg p.1 rest
      else (p.1, false)

/-- Tweet after the post-loop processing map: attachment keys resolved
against the collected media pool, `has_media` flag and canonical URL
added. -/
structure ProcessedTweet where
  id : String
  created_at : Int
  media : List MediaItem
  has_media : Bool
  tweet_url : String
deriving DecidableEq, Repr

/-- Resolution of one tweet's attachment keys against the media pool:
`attachments.media_keys.map(k => pool.find(m => m.media_key === k)).filter(Boolean)`
(performed only when the tweet has an `attachments` object and the pool
is non-empty). -/
def resolveMedia (pool : List MediaItem) (t : Tweet) : List MediaItem :=
  match t.attachments with
  | some keys =>
      if 0 < pool.length then keys.filterMap (fun k => pool.find? (fun m => m.media_key = k))
      else []
  | none => []

/-- Post-loop processing of one collected tweet. -/
def processTweet (username : String) (pool : List MediaItem) (t : Tweet) : ProcessedTweet :=
  let md := resolveMedia pool t
  { id := t.id
    created_at := t.created_at
    media := md
    has_media := 0 < md.length
    tweet_url := "https://twitter.com/" ++ username ++ "/status/" ++ t.id }

/-- Metadata summary of one collection run (the `summary` object). -/
structure CollectionMetadata where
  totalCollected : Nat
  pagesProcessed : Nat
  oldestTweetDate : Option Int
  newestTweetDate : Option Int
  timeSpanDays : Nat
  hasMoreData : Bool
  collectionStrategy : String
  rateLimitHits : Nat
  errors : List String
deriving DecidableEq, Repr

/-- Value returned by `maximizeUserTweetCollection`. -/
structure CollectionResult where
  tweets : List ProcessedTweet
  metadata : CollectionMetadata
deriving DecidableEq, Repr

/-- Embedding of `Math.ceil((newest - oldest) / (1000*60*60*24))` for a
non-negative millisecond difference. -/
def ceilDays (d : Int) : Nat := (d.toNat + (86400000 - 1)) / 86400000

/-- Shallow embedding of `maximizeUserTweetCollection`: runs the
collection loop on the supplied fetch outcomes, then performs the
post-loop assembly (date range from a copy sorted by `created_at`,
media merging, summary).  The function is total: every fetch error is
absorbed by the loop's `catch` blocks, none of which rethrows, and the
enclosing global `try`/`catch` also only records errors — so the source
returns a result on every path, which the embedding mirrors. -/
def maximizeUserTweetCollection (cfg : CollectConfig) (username : String)
    (outcomes : List FetchOutcome) : CollectionResult :=
  let s := (collectRun cfg {} outcomes).1
  let sorted := List.insertionSort (fun a b => a.created_at ≤ b.created_at) s.allTweets
  let oldest := (sorted.head?).map Tweet.created_at
  let newest := (sorted.getLast?).map Tweet.created_at
  let span :=
    match oldest, newest with
    | some a, some b => ceilDays (b - a)
    | _, _ => 0
  { tweets := s.allTweets.map (processTweet username s.allMedia)
    metadata :=
      { totalCollected := s.allTweets.length
        pagesProcessed := s.pagesProcessed
        oldestTweetDate := oldest
        newestTweetDate := newest
        timeSpanDays := span
        hasMoreData := s.hasMoreData
        collectionStrategy := "maximum_unlimited_historical"
        rateLimitHits := s.rateLimitHits
        errors := s.errors } }

/-! ### Cache store and eviction policy (`MaximizedTwitterCache`)

The cache keeps one `CachedAccountData` per lowercased username inside a
single `sessionStorage` value.  JavaScript objects iterate string keys
in insertion order, so the `accounts` map is embedded as an association
list in insertion order (`Object.entries`, `Object.values`,
`Object.keys().length` and `Object.fromEntries` all respect that
order).  Only the fields the cache itself reads are kept per account:
the tweet list (its length and serialized bulk), the collection
timestamp, the time span and the total engagement.

Serialized byte size (`new Blob([JSON.stringify(…)]).size`) is embedded
additively: every entry contributes its key length plus a structural
constant plus its tweets' serialized sizes, and the store adds a
constant envelope for the global metadata.  This keeps exactly the
properties of the JSON encoding that the size check and the eviction
claims depend on (additivity over entries and monotonicity under
dropping entries). -/

/-- Tweet as stored in the cache; only the serialized bulk (its text)
matters to the cache layer. -/
structure CachedTweet where
  text : String
deriving DecidableEq, Repr

/-- Engagement statistics of a cached account
(`stats.engagement.totalEngagement` is the only stats field the cache
reads). -/
structure AccountStats where
  totalEngagement : Nat
deriving DecidableEq, Repr

/-- Collection metadata fields of a cached account that the eviction
score reads (`collectionTime` as a millisecond timestamp). -/
structure AccountCollectionMetadata where
  collectionTime : Int
  timeSpanDays : Nat
deriving DecidableEq, Repr

/-- Cached per-account payload (`CachedAccountData` of the source,
restricted to the fields the cache layer reads). -/
structure CachedAccountData where
  tweets : List CachedTweet
  stats : AccountStats
  collectionMetadata : AccountCollectionMetadata
deriving DecidableEq, Repr

/-- Global metadata block of the store. -/
structure GlobalMetadata where
  lastUpdated : Int
  version : String
  totalAccounts : Nat
  totalTweets : Nat
  cachingStrategy : String
deriving DecidableEq, Repr

/-- Whole cached store (`MaximizedCacheData`): accounts in insertion
order plus global metadata. -/
structure MaximizedCacheData where
  accounts : List (String × CachedAccountData)
  globalMetadata : GlobalMetadata
deriving DecidableEq, Repr

/-- Constant `MAX_STORAGE_SIZE` (50 MB). -/
def MAX_STORAGE_SIZE : Nat := 50 * 1024 * 1024

/-- Constant `CACHE_DURATION` (4 hours in ms). -/
def CACHE_DURATION : Nat := 4 * 60 * 60 * 1000

/-- Serialized byte contribution of one cached tweet (its text plus a
constant for the JSON field structure). -/
def tweetSerSize (t : CachedTweet) : Nat := t.text.length + 12

/-- Serialized byte contribution of one account entry: key, fixed
per-entry fields, and the tweets. -/
def entrySerSize (p : String × CachedAccountData) : Nat :=
  p.1.length + 64 + (p.2.tweets.map tweetSerSize).sum

/-- Serialized byte size of the compressed store
(`new Blob([compressData(cacheData)]).size`): a constant envelope for
the global metadata plus the entries' contributions. -/
def serializedSize (d : MaximizedCacheData) : Nat :=
  128 + (d.accounts.map entrySerSize).sum

/-- Embedding of `getRecencyScore`:
`max(0, 1 - hoursAgo / 24)` with `hoursAgo = (now - collectionDate) / (1000*60*60)`. -/
def getRecencyScore (now : Int) (collectionTime : Int) : ℚ :=
  let hoursAgo : ℚ := ((now - collectionTime : Int) : ℚ) / (1000 * 60 * 60)
  max 0 (1 - hoursAgo / 24)

/-- Embedding of `calculateAccountCacheScore`: recency + data quality
(tweets/1000) + time span (days/365) + engagement (total/10000). -/
def calculateAccountCacheScore (now : Int) (a : CachedAccountData) : ℚ :=
  getRecencyScore now a.collectionMetadata.collectionTime
    + (a.tweets.length : ℚ) / 1000
    + (a.collectionMetadata.timeSpanDays : ℚ) / 365
    + (a.stats.totalEngagement : ℚ) / 10000

/-- Comparator relation of the cleanup sort: `a` may come before `b`
when `b`'s score does not exceed `a`'s (descending order; the source
sorts with the comparator `scoreB - scoreA`). -/
def cleanupGe (now : Int) (a b : String × CachedAccountData) : Prop :=
  calculateAccountCacheScore now b.2 ≤ calculateAccountCacheScore now a.2

instance (now : Int) : DecidableRel (cleanupGe now) := fun a b =>
  inferInstanceAs
    (Decidable (calculateAccountCacheScore now b.2 ≤ calculateAccountCacheScore now a.2))

/-- Embedding of `Math.ceil(accounts.length * 0.7)` on a list length
(the number of accounts kept by the cleanup). -/
def cleanupKeepCount (n : Nat) : Nat := (7 * n + 9) / 10

/-- Shallow embedding of `performIntelligentCleanup`: sort the entries
descending by cache score (a stable sort, as JavaScript's `sort`),
keep the top `Math.ceil(length * 0.7)`, and recompute the aggregate
counters from the surviving entries.  `now` is the `Date.now()` of the
run. -/
def performIntelligentCleanup (now : Int) (d : MaximizedCacheData) : MaximizedCacheData :=
  let sorted := List.insertionSort (cleanupGe now) d.accounts
  let keepCount := cleanupKeepCount d.accounts.length
  let kept := sorted.take keepCount
  { accounts := kept
    globalMetadata :=
      { d.globalMetadata with
        lastUpdated := now
        totalAccounts := kept.length
        totalTweets := (kept.map (fun p => p.2.tweets.length)).sum } }

/-- Persistent browser storage under the two cache keys; the stored
JSON string is represented by the store it encodes (`compressData` /
`decompressData` are mutually inverse on well-formed data). -/
structure Storage where
  cacheVal : Option MaximizedCacheData := none
  expiryVal : Option Int := none
deriving DecidableEq, Repr

/-- Embedding of `clear`: remove both storage keys. -/
def clearCache (s : Storage) : Storage := { s with cacheVal := none, expiryVal := none }

/-- Embedding of `username.toLowerCase()`: lowercase the characters of
the string (usernames are ASCII, for which JavaScript's `toLowerCase`
is exactly per-character lowercasing). -/
def toLowerStr (s : String) : String := ⟨s.data.map Char.toLower⟩

/-- Association-list lookup mirroring `accounts[key]` (`none` stands
for the source's `|| null`). -/
def lookupAccount : List (String × CachedAccountData) → String → Option CachedAccountData
  | [], _ => none
  | (k, v) :: rest, key => if k = key then some v else lookupAccount rest key

/-- Association-list update mirroring `accounts[key] = value` on a
JavaScript object: replace in place when the key exists, else append. -/
def upsertAccount : List (String × CachedAccountData) → String → CachedAccountData →
    List (String × CachedAccountData)
  | [], k, v => [(k, v)]
  | (k', v') :: rest, k, v =>
      if k' = k then (k, v) :: rest else (k', v') :: upsertAccount rest k v

/-- Embedding of `getAllData`.  `readThrows` injects a storage-read /
parse failure for this call (`sessionStorage.getItem` or `JSON.parse`
raising); the source catches it locally, clears the cache and returns
`null`.  Returns the read result and the possibly-cleared storage. -/
def getAllData (s : Storage) (now : Int) (readThrows : Bool) :
    Option MaximizedCacheData × Storage :=
  if readThrows then (none, clearCache s)
  else
    match s.expiryVal with
    | none => (none, clearCache s)
    | some exp =>
        if exp < now then (none, clearCache s)
        else
          match s.cacheVal with
          | none => (none, s)
          | some d => (some d, s)

/-- Embedding of `getAccountData` (a fault-free read):
`getAllData().accounts[username.toLowerCase()] || null`. -/
def getAccountData (s : Storage) (now : Int) (username : String) :
    Option CachedAccountData :=
  match (getAllData s now false).1 with
  | none => none
  | some d => lookupAccount d.accounts (toLowerStr username)

/-- Fresh store created by `setAccountData` when nothing is cached. -/
def emptyCacheData (now : Int) : MaximizedCacheData :=
  { accounts := []
    globalMetadata :=
      { lastUpdated := now
        version := "v2_maximum_collection"
        totalAccounts := 0
        totalTweets := 0
        cachingStrategy := "maximum_unlimited_historical" } }

/-- Store produced by the update phase of `setAccountData`: upsert the
entry under the lowercased key into the existing store (or a fresh one)
and recompute the global metadata. -/
def updatedCacheData (existing : Option MaximizedCacheData) (now : Int)
    (username : String) (accountData : CachedAccountData) : MaximizedCacheData :=
  let cacheData := existing.getD (emptyCacheData now)
  let accounts := upsertAccount cacheData.accounts (toLowerStr username) accountData
  { accounts := accounts
    globalMetadata :=
      { cacheData.globalMetadata with
        lastUpdated := now
        totalAccounts := accounts.length
        totalTweets := (accounts.map (fun p => p.2.tweets.length)).sum } }

/-- Shallow embedding of `setAccountData`.  `readThrows` injects a
failure of the internal `getAllData` read (handled inside that call);
`writeThrows` injects a `sessionStorage.setItem` failure, which reaches
`setAccountData`'s own `catch` block — the recovery there is
`this.clear()`.  Returns the storage after the call. -/
def setAccountData (s : Storage) (now : Int) (username : String)
    (accountData : CachedAccountData) (readThrows writeThrows : Bool) : Storage :=
  let read := getAllData s now readThrows
  let cacheData := updatedCacheData read.1 now username accountData
  let dataSize := serializedSize cacheData
  let finalData :=
    if MAX_STORAGE_SIZE < dataSize then performIntelligentCleanup now cacheData
    else cacheData
  if writeThrows then clearCache read.2
  else { read.2 with cacheVal := some finalData, expiryVal := some (now + CACHE_DURATION) }

/-! ## Theorems -/

/-! ### Retry policy claims -/

/-- An error is transient for the retry policy when its code is none of
`429`, `401`, `403`, `404`. -/
def isTransientError (e : TwError) : Prop :=
  e.code ≠ some 429 ∧ e.code ≠ some 401 ∧ e.code ≠ some 403 ∧ e.code ≠ some 404

/-- C7: an operation whose failure carries a fatal code (401, 403 or
404) is invoked exactly once; `retryWithIntelligentBackoff` raises that
error immediately (no backoff sleeps), for every positive `maxRetries`. -/
theorem retry_fatal_invokes_once {α : Type} (op : Nat → Except TwError α)
    (maxRetries : Nat) (e : TwError)
    (hmax : 1 ≤ maxRetries) (hop : op 1 = .error e)
    (hfatal : e.code = some 401 ∨ e.code = some 403 ∨ e.code = some 404) :
    retryWithIntelligentBackoff op maxRetries = ⟨.error e, 1, []⟩ := by
  obtain ⟨r, rfl⟩ : ∃ r, maxRetries = r + 1 := ⟨maxRetries - 1, by omega⟩
  unfold retryWithIntelligentBackoff retryAux
  rw [hop]
  rcases hfatal with h | h | h <;> simp [h]

/-- Witness for C7: a 404-failing operation under `maxRetries = 2` is
invoked once and the 404 error is raised. -/
theorem retry_fatal_invokes_once_witness :
    (fun _ => (Except.error ⟨some 404, "nf"⟩ : Except TwError Unit)) 1
        = .error ⟨some 404, "nf"⟩ ∧
    retryWithIntelligentBackoff (fun _ => (.error ⟨some 404, "nf"⟩ : Except TwError Unit)) 2
        = ⟨.error ⟨some 404, "nf"⟩, 1, []⟩ :=
  ⟨rfl, retry_fatal_invokes_once _ 2 _ (by decide) rfl (Or.inr (Or.inr rfl))⟩

/-- Helper for C8: running the retry loop from attempt `attempt` with
`r` attempts remaining (including the current one) on an operation that
always fails transiently performs `r` invocations, sleeps the linear
backoffs, and ends with the last attempt's error. -/
theorem retryAux_transient {α : Type} (op : Nat → Except TwError α) (maxRetries : Nat)
    (errf : Nat → TwError)
    (hop : ∀ n, op n = .error (errf n))
    (htr : ∀ n, isTransientError (errf n)) :
    ∀ r attempt lastErr inv delays, 1 ≤ r → attempt + r = maxRetries + 1 →
      retryAux op maxRetries r attempt lastErr inv delays =
        ⟨.error (errf maxRetries), inv + r,
          delays ++ (List.range' attempt (r - 1)).map (fun i => 2000 * i)⟩ := by
  intro r
  induction r with
  | zero => omega
  | succ r ih =>
      intro attempt lastErr inv delays _ hsum
      obtain ⟨h1, h2, h3, h4⟩ := htr attempt
      rw [retryAux, hop attempt]
      simp only [h1, h2, h3, h4, if_neg, ite_false, false_or]
      rcases Nat.lt_or_ge r 1 with hr | hr
      · interval_cases r
        have : ¬ attempt < maxRetries := by omega
        have ha : attempt = maxRetries := by omega
        simp [this, ha, List.range']
      · have hlt : attempt < maxRetries := by omega
        rw [if_pos hlt, ih (attempt + 1) (errf attempt) (inv + 1) (delays ++ [2000 * attempt])
          hr (by omega)]
        have hsplit : List.range' attempt r = attempt :: List.range' (attempt + 1) (r - 1) := by
          obtain ⟨r', rfl⟩ : ∃ r', r = r' + 1 := ⟨r - 1, by omega⟩
          simp [List.range']
        simp [hsplit]
        omega

/-- C8 (amended): an always-transiently-failing operation is invoked
exactly `maxRetries` times, with linearly increasing backoff sleeps of
`2000 * attempt` ms between consecutive attempts, and the error of the
last attempt is then raised unmodified. -/
theorem retry_transient_exhausts {α : Type} (op : Nat → Except TwError α)
    (maxRetries : Nat) (errf : Nat → TwError)
    (hmax : 1 ≤ maxRetries)
    (hop : ∀ n, op n = .error (errf n))
    (htr : ∀ n, isTransientError (errf n)) :
    retryWithIntelligentBackoff op maxRetries =
      ⟨.error (errf maxRetries), maxRetries,
        (List.range' 1 (maxRetries - 1)).map (fun i => 2000 * i)⟩ := by
  have := retryAux_transient op maxRetries errf hop htr maxRetries 1 undefinedError 0 []
    hmax (by omega)
  simpa [retryWithIntelligentBackoff] using this

/-- Witness for C8's amended theorem: a `500`-failing operation with
`maxRetries = 2` is invoked twice with one 2000 ms backoff and the last
error raised. -/
theorem retry_transient_exhausts_witness :
    (∀ n : Nat, (fun _ => (Except.error ⟨some 500, "boom"⟩ : Except TwError Unit)) n
        = .error ⟨some 500, "boom"⟩) ∧
    retryWithIntelligentBackoff
        (fun _ => (.error ⟨some 500, "boom"⟩ : Except TwError Unit)) 2
      = ⟨.error ⟨some 500, "boom"⟩, 2, [2000]⟩ :=
  ⟨fun _ => rfl,
    retry_transient_exhausts _ 2 (fun _ => ⟨some 500, "boom"⟩) (by decide)
      (fun _ => rfl) (fun _ => by constructor <;> simp)⟩

/-- C8 counterexample: the raised error is the operation's own last
error, byte-for-byte — its message is still exactly `"boom"`, so the
raised value carries no annotation with the attempt count or the
operation name (those appear only in console logging in the source). -/
theorem retry_exhaustion_raises_bare_error :
    retryWithIntelligentBackoff
        (fun _ => (.error ⟨some 500, "boom"⟩ : Except TwError Unit)) 2
      = ⟨.error ⟨some 500, "boom"⟩, 2, [2000]⟩ ∧
    (retryWithIntelligentBackoff
        (fun _ => (.error ⟨some 500, "boom"⟩ : Except TwError Unit)) 2).result
      = .error ⟨some 500, "boom"⟩ := by
  constructor <;> rfl

/-! ### Throttle gate claims -/

/-- Single-step bound for the throttle gate: after any `throttleRequest`
call the stored counter is at most `maxRequestsPerWindow` (the quota
branch resets it to 1, every other branch increments a value that the
quota check has just bounded below 50). -/
theorem throttleRequest_count_le (s : ThrottleState) (now : Nat) :
    (throttleRequest s now).1.requestCount ≤ maxRequestsPerWindow := by
  simp only [throttleRequest, maxRequestsPerWindow]
  repeat' split
  all_goals try simp_all
  all_goals omega

/-- C2 (amended): for every sequence of `acquire` calls, the request
counter observed after each call — the number of acquisitions recorded
since the current fixed window started — never exceeds
`maxRequestsPerWindow`. -/
theorem throttle_fixed_window_invariant (s₀ : ThrottleState) (trace : List Nat) :
    ∀ st ∈ runThrottleStates s₀ trace, st.requestCount ≤ maxRequestsPerWindow := by
  induction trace generalizing s₀ with
  | nil => simp [runThrottleStates]
  | cons t ts ih =>
      intro st hst
      simp only [runThrottleStates, List.mem_cons] at hst
      rcases hst with rfl | hst
      · exact throttleRequest_count_le s₀ t
      · exact ih _ st hst

/-- Witness for C2's amended theorem at a concrete one-call trace. -/
theorem throttle_fixed_window_invariant_witness :
    (⟨1, 5⟩ : ThrottleState) ∈ runThrottleStates {} [5] ∧
    (⟨1, 5⟩ : ThrottleState).requestCount ≤ maxRequestsPerWindow :=
  ⟨by decide, throttle_fixed_window_invariant {} [5] ⟨1, 5⟩ (by decide)⟩

set_option maxRecDepth 8000 in
/-- C2 counterexample: a concrete call sequence (one call at `t = 1`,
49 calls at `t = 900000`, 50 calls at `t = 900001`, none of which is
delayed) completes 99 acquisitions inside the rolling 15-minute
interval starting at `t = 900000` — the fixed-window reset at
`t = 900001` refreshes the quota mid-interval, so the rolling-window
bound of 50 is violated. -/
theorem throttle_rolling_window_violated :
    ((runThrottle {} ([1] ++ List.replicate 49 900000 ++ List.replicate 50 900001)).2.countP
        (fun c => decide (900000 ≤ c) && decide (c < 900000 + windowDurationMs))) = 99 ∧
    maxRequestsPerWindow <
      ((runThrottle {} ([1] ++ List.replicate 49 900000 ++ List.replicate 50 900001)).2.countP
        (fun c => decide (900000 ≤ c) && decide (c < 900000 + windowDurationMs))) := by
  constructor <;> decide

/-! ### Paginated collector claims -/

/-- Composition of collection-loop runs: when the loop is still live
after consuming `pre`, further outcomes continue from the reached
state. -/
theorem collectRun_append (cfg : CollectConfig) (s : CollectState)
    (pre rest : List FetchOutcome) (h : (collectRun cfg s pre).2 = true) :
    collectRun cfg s (pre ++ rest) = collectRun cfg (collectRun cfg s pre).1 rest := by
  induction pre generalizing s with
  | nil => simp [collectRun]
  | cons o os ih =>
      simp only [collectRun, List.cons_append] at h ⊢
      by_cases hb : (collectStep cfg s o).2
      · simp [hb] at h
      · simp only [hb, Bool.false_eq_true, if_false] at h ⊢
        by_cases hc : loopCond cfg (collectStep cfg s o).1
        · simp only [hc, if_true] at h ⊢
          exact ih _ h
        · simp [hc] at h

/-- Iteration body on a fatal (non-429) error with data already
accumulated: the error is recorded and the loop breaks with the tweets
untouched. -/
theorem collectStep_fatal_with_data (cfg : CollectConfig) (s : CollectState)
    (code : Option Nat) (msg : String)
    (hcode : code ≠ some 429) (hN : 0 < s.allTweets.length) :
    collectStep cfg s (.failure code msg) =
      ({ s with fetchCalls := s.fetchCalls + 1, shouldStop := true,
                errors := s.errors ++ [pageErr (s.pagesProcessed + 1) msg] }, true) := by
  simp [collectStep, hcode, hN]

/-- Iteration body on a fatal (non-429) error with no data: the error
is recorded and the loop breaks (plain `break`, `shouldStop` is left
unset). -/
theorem collectStep_fatal_no_data (cfg : CollectConfig) (s : CollectState)
    (code : Option Nat) (msg : String)
    (hcode : code ≠ some 429) (hN : s.allTweets = []) :
    collectStep cfg s (.failure code msg) =
      ({ s with fetchCalls := s.fetchCalls + 1,
                errors := s.errors ++ [pageErr (s.pagesProcessed + 1) msg] }, true) := by
  simp [collectStep, hcode, hN]

/-- Iteration body on a rate-limit error with no data: the hit is
counted, the error recorded, the 5-second cooldown slept, and the body
ends in `continue` (no break) without counting a page. -/
theorem collectStep_rateLimit_no_data (cfg : CollectConfig) (s : CollectState)
    (msg : String) (hN : s.allTweets = []) :
    collectStep cfg s (.failure (some 429) msg) =
      ({ s with fetchCalls := s.fetchCalls + 1,
                rateLimitHits := s.rateLimitHits + 1,
                errors := s.errors ++ [rateLimitErr (s.pagesProcessed + 1)],
                sleeps := s.sleeps ++ [5000] }, false) := by
  simp [collectStep, hN]

/-- C1: whenever a run of the collector is still live with `N > 0`
accumulated records and the next page fetch surfaces a fatal (non-429)
error after retries, `maximizeUserTweetCollection` returns normally
with exactly those `N` records (same ids, in order) and with the error
appended to `metadata.errors`. -/
theorem collector_no_data_loss (cfg : CollectConfig) (username : String)
    (pre rest : List FetchOutcome) (code : Option Nat) (msg : String)
    (hlive : (collectRun cfg {} pre).2 = true)
    (hcode : code ≠ some 429)
    (hN : 0 < (collectRun cfg {} pre).1.allTweets.length) :
    (maximizeUserTweetCollection cfg username
        (pre ++ .failure code msg :: rest)).tweets.length
      = (collectRun cfg {} pre).1.allTweets.length ∧
    (maximizeUserTweetCollection cfg username
        (pre ++ .failure code msg :: rest)).tweets.map ProcessedTweet.id
      = (collectRun cfg {} pre).1.allTweets.map Tweet.id ∧
    (maximizeUserTweetCollection cfg username
        (pre ++ .failure code msg :: rest)).metadata.totalCollected
      = (collectRun cfg {} pre).1.allTweets.length ∧
    (maximizeUserTweetCollection cfg username
        (pre ++ .failure code msg :: rest)).metadata.errors
      = (collectRun cfg {} pre).1.errors
          ++ [pageErr ((collectRun cfg {} pre).1.pagesProcessed + 1) msg] := by
  have happ := collectRun_append cfg {} pre (.failure code msg :: rest) hlive
  have hstep := collectStep_fatal_with_data cfg (collectRun cfg {} pre).1 code msg hcode hN
  have hrun : collectRun cfg {} (pre ++ .failure code msg :: rest) =
      ({ (collectRun cfg {} pre).1 with
          fetchCalls := (collectRun cfg {} pre).1.fetchCalls + 1, shouldStop := true,
          errors := (collectRun cfg {} pre).1.errors
            ++ [pageErr ((collectRun cfg {} pre).1.pagesProcessed + 1) msg] }, false) := by
    rw [happ]
    simp [collectRun, hstep]
  simp only [maximizeUserTweetCollection, hrun]
  refine ⟨by simp, ?_, by simp, by simp⟩
  simp [List.map_map, processTweet, Function.comp]

/-- Witness for C1: one successful 2-tweet page followed by a fatal
500 error keeps both records and records the page-2 error. -/
theorem collector_no_data_loss_witness :
    (collectRun {} {} [.success [⟨"a", 0, none⟩, ⟨"b", 1, none⟩] [] (some "tok")]).2 = true ∧
    (some 500 : Option Nat) ≠ some 429 ∧
    0 < (collectRun {} {}
      [.success [⟨"a", 0, none⟩, ⟨"b", 1, none⟩] [] (some "tok")]).1.allTweets.length ∧
    (maximizeUserTweetCollection {} "alice"
        ([.success [⟨"a", 0, none⟩, ⟨"b", 1, none⟩] [] (some "tok")]
          ++ .failure (some 500) "server error" :: [])).tweets.length
      = (collectRun {} {}
          [.success [⟨"a", 0, none⟩, ⟨"b", 1, none⟩] [] (some "tok")]).1.allTweets.length :=
  ⟨by decide, by decide, by decide,
    (collector_no_data_loss {} "alice"
      [.success [⟨"a", 0, none⟩, ⟨"b", 1, none⟩] [] (some "tok")] []
      (some 500) "server error" (by decide) (by decide) (by decide)).1⟩

/-- C4 (amended): the collector never propagates a page-fetch error;
on a fatal (non-429) error with zero accumulated records it ends the
loop and returns an empty — but normal — result with the error
recorded in `metadata.errors`. -/
theorem collector_fatal_no_data_returns_empty (cfg : CollectConfig) (username : String)
    (code : Option Nat) (msg : String) (rest : List FetchOutcome)
    (hcode : code ≠ some 429) :
    maximizeUserTweetCollection cfg username (.failure code msg :: rest) =
      { tweets := []
        metadata :=
          { totalCollected := 0
            pagesProcessed := 0
            oldestTweetDate := none
            newestTweetDate := none
            timeSpanDays := 0
            hasMoreData := false
            collectionStrategy := "maximum_unlimited_historical"
            rateLimitHits := 0
            errors := [pageErr 1 msg] } } := by
  have hstep := collectStep_fatal_no_data cfg {} code msg hcode rfl
  simp [maximizeUserTweetCollection, collectRun, hstep]

/-- Witness for C4's amended theorem at a concrete 404 failure. -/
theorem collector_fatal_no_data_returns_empty_witness :
    (some 404 : Option Nat) ≠ some 429 ∧
    maximizeUserTweetCollection {} "alice" [.failure (some 404) "nf"] =
      { tweets := []
        metadata :=
          { totalCollected := 0
            pagesProcessed := 0
            oldestTweetDate := none
            newestTweetDate := none
            timeSpanDays := 0
            hasMoreData := false
            collectionStrategy := "maximum_unlimited_historical"
            rateLimitHits := 0
            errors := [pageErr 1 "nf"] } } :=
  ⟨by decide, collector_fatal_no_data_returns_empty {} "alice" (some 404) "nf" [] (by decide)⟩

/-- C4 counterexample: with zero records accumulated and a fatal 404
error on the first fetch, the collector does not raise — it returns a
normal empty result with the error recorded, contradicting the claim
that an exception propagates to the caller exactly in this case. -/
theorem collector_propagation_iff_refuted :
    maximizeUserTweetCollection {} "alice" [.failure (some 404) "user not found"] =
      { tweets := []
        metadata :=
          { totalCollected := 0
            pagesProcessed := 0
            oldestTweetDate := none
            newestTweetDate := none
            timeSpanDays := 0
            hasMoreData := false
            collectionStrategy := "maximum_unlimited_historical"
            rateLimitHits := 0
            errors := ["Page 1: user not found"] } } := by
  decide

/-- Collector configuration of the spec's target-overshoot scenario
(`targetRecordCount = 250`, other limits at their defaults). -/
def cfg250 : CollectConfig := { targetTweetCount := 250 }

/-- Sample tweet used in concrete collection scenarios. -/
def sampleTweet : Tweet := { id := "t", created_at := 0 }

/-- Full upstream page: 100 tweets and a continuation token. -/
def fullPage : FetchOutcome := .success (List.replicate 100 sampleTweet) [] (some "tok")

set_option maxRecDepth 40000 in
/-- C5: reaching the target stops collection on that very page — the
loop breaks immediately after appending the page that crosses
`targetTweetCount` and never fetches a further page; concretely, with
target 250 and 100-tweet pages the run performs exactly 3 fetches and
returns 300 records. -/
theorem collector_target_overshoot :
    (∀ (cfg : CollectConfig) (s : CollectState) (items : List Tweet)
        (media : List MediaItem) (tok : Option String) (rest : List FetchOutcome),
        0 < items.length → cfg.targetTweetCount ≤ s.allTweets.length + items.length →
        collectRun cfg s (.success items media tok :: rest) =
          ({ s with fetchCalls := s.fetchCalls + 1, allTweets := s.allTweets ++ items,
                    consecutiveEmptyPages := 0, shouldStop := true }, false)) ∧
    (maximizeUserTweetCollection cfg250 "user"
        [fullPage, fullPage, fullPage, fullPage]).tweets.length = 300 ∧
    (collectRun cfg250 {} [fullPage, fullPage, fullPage, fullPage]).1.fetchCalls = 3 := by
  refine ⟨?_, by decide, by decide⟩
  intro cfg s items media tok rest hi ht
  have hstep : collectStep cfg s (.success items media tok) =
      ({ s with fetchCalls := s.fetchCalls + 1, allTweets := s.allTweets ++ items,
                consecutiveEmptyPages := 0, shouldStop := true }, true) := by
    simp [collectStep, hi, List.length_append, ht]
  simp [collectRun, hstep]

/-- Witness for C5's universally quantified part: a 200-record state
plus a 100-record page crosses the 250 target and the loop stops with
300 records, consuming no further outcome. -/
theorem collector_target_overshoot_witness :
    0 < (List.replicate 100 sampleTweet).length ∧
    cfg250.targetTweetCount ≤
      (List.replicate 200 sampleTweet).length + (List.replicate 100 sampleTweet).length ∧
    collectRun cfg250 { allTweets := List.replicate 200 sampleTweet }
        [.success (List.replicate 100 sampleTweet) [] (some "tok")] =
      ({ ({ allTweets := List.replicate 200 sampleTweet } : CollectState) with
          fetchCalls := 1,
          allTweets := List.replicate 200 sampleTweet ++ List.replicate 100 sampleTweet,
          consecutiveEmptyPages := 0, shouldStop := true }, false) :=
  ⟨by decide, by decide,
    collector_target_overshoot.1 cfg250 { allTweets := List.replicate 200 sampleTweet }
      (List.replicate 100 sampleTweet) [] (some "tok") [] (by decide) (by decide)⟩

/-- C6 (amended): a rate-limit error surfacing with zero accumulated
records increments `rateLimitHits`, records the error, sleeps the fixed
5-second cooldown and does not count a page; the loop then performs
another fetch only when a continuation token from an earlier page is
present (and the page cap is not reached) — from the initial state, in
particular on the very first page, the `do…while` guard sees no token
and the loop exits instead. -/
theorem collector_rate_limit_no_data :
    (∀ (cfg : CollectConfig) (s : CollectState) (msg : String) (rest : List FetchOutcome),
        s.allTweets = [] → s.shouldStop = false → s.nextToken.isSome = true →
        s.pagesProcessed < cfg.maxPages →
        collectRun cfg s (.failure (some 429) msg :: rest) =
          collectRun cfg
            { s with fetchCalls := s.fetchCalls + 1,
                     rateLimitHits := s.rateLimitHits + 1,
                     errors := s.errors ++ [rateLimitErr (s.pagesProcessed + 1)],
                     sleeps := s.sleeps ++ [5000] } rest) ∧
    (∀ (cfg : CollectConfig) (msg : String) (rest : List FetchOutcome),
        collectRun cfg {} (.failure (some 429) msg :: rest) =
          ({ fetchCalls := 1, rateLimitHits := 1, errors := [rateLimitErr 1],
             sleeps := [5000] }, false)) := by
  constructor
  · intro cfg s msg rest hN hstop htok hpages
    have hstep := collectStep_rateLimit_no_data cfg s msg hN
    simp [collectRun, hstep, loopCond, htok, hpages, hstop]
  · intro cfg msg rest
    have hstep := collectStep_rateLimit_no_data cfg {} msg rfl
    simp only [collectRun, hstep, loopCond]
    rfl

/-- Witness for C6's amended theorem: with a token from an earlier
(empty) page present, a no-data rate limit continues the loop. -/
theorem collector_rate_limit_no_data_witness :
    (({ nextToken := some "tok", pagesProcessed := 1 } : CollectState).allTweets = []) ∧
    collectRun {} { nextToken := some "tok", pagesProcessed := 1 }
        [.failure (some 429) "rl"] =
      collectRun {}
        { ({ nextToken := some "tok", pagesProcessed := 1 } : CollectState) with
          fetchCalls := 1, rateLimitHits := 1, errors := [rateLimitErr 2],
          sleeps := [5000] } [] :=
  ⟨rfl,
    collector_rate_limit_no_data.1 {} { nextToken := some "tok", pagesProcessed := 1 }
      "rl" [] rfl rfl rfl (by decide)⟩

/-- C6 counterexample: a rate limit on the very first page with zero
records does not lead to another fetch attempt — even though a further
page is available in the environment, the run ends after one fetch
(`fetchCalls = 1`) with an empty result, because the `do…while` guard
`nextToken && …` is falsy before any page has been processed. -/
theorem collector_first_page_rate_limit_stops :
    collectRun {} {}
        [.failure (some 429) "rate limited",
          .success [{ id := "a", created_at := 0 }] [] (some "tok")] =
      ({ fetchCalls := 1, rateLimitHits := 1, errors := ["Rate limit on page 1"],
         sleeps := [5000] }, false) := by
  decide

/-! ### Cache store and eviction claims -/

instance (now : Int) : IsTotal (String × CachedAccountData) (cleanupGe now) :=
  ⟨fun a b => le_total (calculateAccountCacheScore now b.2) (calculateAccountCacheScore now a.2)⟩

instance (now : Int) : IsTrans (String × CachedAccountData) (cleanupGe now) :=
  ⟨fun _ _ _ hab hbc => le_trans hbc hab⟩

/-- Sum of a function that is constant on a list. -/
theorem sum_map_const {α : Type} (l : List α) (f : α → Nat) (c : Nat)
    (h : ∀ x ∈ l, f x = c) : (l.map f).sum = l.length * c := by
  induction l with
  | nil => simp
  | cons a t ih =>
      rw [List.map_cons, List.sum_cons, h a (by simp),
        ih (fun x hx => h x (by simp [hx])), List.length_cons, Nat.succ_mul]
      omega

/-- C9: the eviction step scores each entry as
recency + volume + span + engagement with the claimed component
formulas, keeps exactly the top `ceil(0.7 * n)` entries of the
descending-by-score order (so 3 of 3, and 7 of 10), and recomputes the
aggregate counters from the surviving entries. -/
theorem eviction_ordering_and_score (now : Int) (d : MaximizedCacheData) :
    (∀ a : CachedAccountData,
        calculateAccountCacheScore now a =
          max 0 (1 -
              (((now - a.collectionMetadata.collectionTime : Int) : ℚ) / (1000 * 60 * 60)) / 24)
            + (a.tweets.length : ℚ) / 1000
            + (a.collectionMetadata.timeSpanDays : ℚ) / 365
            + (a.stats.totalEngagement : ℚ) / 10000) ∧
    cleanupKeepCount 3 = 3 ∧
    cleanupKeepCount 10 = 7 ∧
    (performIntelligentCleanup now d).accounts.length = cleanupKeepCount d.accounts.length ∧
    ((performIntelligentCleanup now d).accounts ++
        (List.insertionSort (cleanupGe now) d.accounts).drop
          (cleanupKeepCount d.accounts.length)).Perm d.accounts ∧
    (∀ x ∈ (performIntelligentCleanup now d).accounts,
        ∀ y ∈ (List.insertionSort (cleanupGe now) d.accounts).drop
            (cleanupKeepCount d.accounts.length),
          calculateAccountCacheScore now y.2 ≤ calculateAccountCacheScore now x.2) ∧
    (performIntelligentCleanup now d).globalMetadata.totalAccounts =
      (performIntelligentCleanup now d).accounts.length ∧
    (performIntelligentCleanup now d).globalMetadata.totalTweets =
      ((performIntelligentCleanup now d).accounts.map (fun p => p.2.tweets.length)).sum ∧
    (performIntelligentCleanup now d).globalMetadata.lastUpdated = now := by
  have hacc : (performIntelligentCleanup now d).accounts =
      (List.insertionSort (cleanupGe now) d.accounts).take
        (cleanupKeepCount d.accounts.length) := rfl
  have hperm : (List.insertionSort (cleanupGe now) d.accounts).Perm d.accounts :=
    List.perm_insertionSort _ _
  have hlen : (List.insertionSort (cleanupGe now) d.accounts).length = d.accounts.length :=
    hperm.length_eq
  have hk : cleanupKeepCount d.accounts.length ≤ d.accounts.length := by
    unfold cleanupKeepCount; omega
  refine ⟨fun a => rfl, by decide, by decide, ?_, ?_, ?_, rfl, rfl, rfl⟩
  · rw [hacc, List.length_take, hlen]; omega
  · rw [hacc, List.take_append_drop]; exact hperm
  · rw [hacc]
    have hs : List.Pairwise (cleanupGe now) (List.insertionSort (cleanupGe now) d.accounts) :=
      List.sorted_insertionSort (cleanupGe now) d.accounts
    rw [← List.take_append_drop (cleanupKeepCount d.accounts.length)
        (List.insertionSort (cleanupGe now) d.accounts)] at hs
    exact fun x hx y hy => (List.pairwise_append.mp hs).2.2 x hx y hy

/-- Account with an empty payload, for small concrete cache scenarios. -/
def wAcct : CachedAccountData :=
  { tweets := [], stats := ⟨0⟩, collectionMetadata := ⟨0, 0⟩ }

/-- Two-entry store for small concrete cache scenarios. -/
def wStore : MaximizedCacheData :=
  { accounts := [("a", wAcct), ("b", wAcct)]
    globalMetadata := ⟨0, "v2_maximum_collection", 2, 0, "maximum_unlimited_historical"⟩ }

/-- Witness for C9 on a concrete two-entry store. -/
theorem eviction_ordering_and_score_witness :
    cleanupKeepCount 10 = 7 ∧
    (performIntelligentCleanup 0 wStore).accounts.length = cleanupKeepCount 2 :=
  ⟨(eviction_ordering_and_score 0 wStore).2.2.1, by
    have h := (eviction_ordering_and_score 0 wStore).2.2.2.1
    simpa [wStore] using h⟩

/-- C3 (amended): the eviction step never grows the serialized store —
it drops the `floor(0.3 * n)` lowest-scoring entries — but it performs
a single pass with no size re-check, so the committed size is not
guaranteed to be at most `MAX_STORAGE_SIZE`. -/
theorem eviction_never_grows_size (now : Int) (d : MaximizedCacheData) :
    serializedSize (performIntelligentCleanup now d) ≤ serializedSize d := by
  have hacc : (performIntelligentCleanup now d).accounts =
      (List.insertionSort (cleanupGe now) d.accounts).take
        (cleanupKeepCount d.accounts.length) := rfl
  have hperm : (List.insertionSort (cleanupGe now) d.accounts).Perm d.accounts :=
    List.perm_insertionSort _ _
  have hsum : ((List.insertionSort (cleanupGe now) d.accounts).map entrySerSize).sum =
      (d.accounts.map entrySerSize).sum := (hperm.map entrySerSize).sum_eq
  have htake : (((List.insertionSort (cleanupGe now) d.accounts).take
        (cleanupKeepCount d.accounts.length)).map entrySerSize).sum ≤
      ((List.insertionSort (cleanupGe now) d.accounts).map entrySerSize).sum := by
    conv_rhs => rw [← List.take_append_drop (cleanupKeepCount d.accounts.length)
      (List.insertionSort (cleanupGe now) d.accounts)]
    rw [List.map_append, List.sum_append]
    exact Nat.le_add_right _ _
  unfold serializedSize
  rw [hacc]
  omega

/-- Witness for C3's amended theorem on a concrete store. -/
theorem eviction_never_grows_size_witness :
    serializedSize (performIntelligentCleanup 0 wStore) ≤ serializedSize wStore :=
  eviction_never_grows_size 0 wStore

/-- Unfolding of `serializedSize` (stated with an abstract store so
that later rewrites never ask the kernel to evaluate a concrete one). -/
theorem serializedSize_def (d : MaximizedCacheData) :
    serializedSize d = 128 + (d.accounts.map entrySerSize).sum := rfl

/-- Entries surviving `performIntelligentCleanup`: the top
`cleanupKeepCount` of the score-sorted entries. -/
theorem cleanup_accounts_def (now : Int) (d : MaximizedCacheData) :
    (performIntelligentCleanup now d).accounts =
      (List.insertionSort (cleanupGe now) d.accounts).take
        (cleanupKeepCount d.accounts.length) := rfl

/-- Unfolding of `updatedCacheData` on an existing store. -/
theorem updatedCacheData_some (d : MaximizedCacheData) (now : Int) (u : String)
    (a : CachedAccountData) :
    updatedCacheData (some d) now u a =
      { accounts := upsertAccount d.accounts (toLowerStr u) a
        globalMetadata :=
          { d.globalMetadata with
            lastUpdated := now
            totalAccounts := (upsertAccount d.accounts (toLowerStr u) a).length
            totalTweets := ((upsertAccount d.accounts (toLowerStr u) a).map
              (fun p => p.2.tweets.length)).sum } } := rfl

/-- Unfolding of `setAccountData` when the storage write succeeds. -/
theorem setAccountData_write_ok (s : Storage) (now : Int) (u : String)
    (a : CachedAccountData) (rT : Bool) :
    setAccountData s now u a rT false =
      { (getAllData s now rT).2 with
        cacheVal := some
          (if MAX_STORAGE_SIZE < serializedSize (updatedCacheData (getAllData s now rT).1 now u a)
            then performIntelligentCleanup now (updatedCacheData (getAllData s now rT).1 now u a)
            else updatedCacheData (getAllData s now rT).1 now u a)
        expiryVal := some (now + CACHE_DURATION) } := rfl

/-- Tweet whose serialized contribution is 13 bytes, for the oversized
store below. -/
def cxTweet : CachedTweet := ⟨"x"⟩

/-- Account of 615385 such tweets: its whole entry serializes to about
8 MB — far below the 50 MB single-entry budget. -/
def cxAcct : CachedAccountData :=
  { tweets := List.replicate 615385 cxTweet, stats := ⟨0⟩, collectionMetadata := ⟨0, 0⟩ }

/-- Keys of the nine entries already cached before the oversized put. -/
def cx3Keys : List String := ["u1", "u2", "u3", "u4", "u5", "u6", "u7", "u8", "u9"]

/-- Store holding nine ~8 MB entries (about 72 MB serialized). -/
def cx3Pre : MaximizedCacheData :=
  { accounts := cx3Keys.map (fun k => (k, cxAcct))
    globalMetadata := ⟨0, "v2_maximum_collection", 9, 5538465, "maximum_unlimited_historical"⟩ }

/-- Storage state before the oversized put (valid, not expired). -/
def cx3Storage : Storage := { cacheVal := some cx3Pre, expiryVal := some 1 }

/-- Store after upserting a tenth ~8 MB entry under key `ua`: ten
equal-scored entries, about 80 MB serialized. -/
def cx3Put : MaximizedCacheData :=
  { accounts := (cx3Keys ++ ["ua"]).map (fun k => (k, cxAcct))
    globalMetadata := ⟨0, "v2_maximum_collection", 10, 6153850, "maximum_unlimited_historical"⟩ }

/-- Every entry of the oversized store serializes to 8000071 bytes. -/
theorem cx3_entry_size : ∀ p ∈ cx3Put.accounts, entrySerSize p = 8000071 := by
  intro p hp
  simp only [cx3Put, List.mem_map] at hp
  obtain ⟨k, hk, rfl⟩ := hp
  have hklen : k.length = 2 := by
    fin_cases hk <;> decide
  have ht : tweetSerSize cxTweet = 13 := by decide
  have hes : entrySerSize (k, cxAcct) =
      k.length + 64 + ((List.replicate 615385 cxTweet).map tweetSerSize).sum := rfl
  rw [hes, List.map_replicate, List.sum_replicate, smul_eq_mul, ht, hklen]

/-- The oversized store holds ten entries. -/
theorem cx3_len10 : cx3Put.accounts.length = 10 := by
  rw [cx3Put, List.length_map]; rfl

/-- The upserted store exceeds the 50 MB budget, so the put triggers
the eviction step. -/
theorem cx3_oversized : MAX_STORAGE_SIZE < serializedSize cx3Put := by
  have h1 := serializedSize_def cx3Put
  have h2 := sum_map_const cx3Put.accounts entrySerSize 8000071 cx3_entry_size
  have h3 := cx3_len10
  have h4 : MAX_STORAGE_SIZE = 52428800 := rfl
  omega

/-- Reading the pre-put storage yields the nine-entry store. -/
theorem cx3_read : getAllData cx3Storage 0 false = (some cx3Pre, cx3Storage) := by
  simp [getAllData, cx3Storage]

/-- The put key is already lowercase. -/
theorem cx3_tolower : toLowerStr "ua" = "ua" := by decide

/-- Upserting the fresh key appends the tenth entry. -/
theorem cx3_upsert : upsertAccount cx3Pre.accounts "ua" cxAcct = cx3Put.accounts := by
  simp [cx3Pre, cx3Put, cx3Keys, upsertAccount]

/-- Each entry of the oversized store holds 615385 tweets. -/
theorem cx3_tweets_each : ∀ p ∈ cx3Put.accounts, p.2.tweets.length = 615385 := by
  intro p hp
  simp only [cx3Put, List.mem_map] at hp
  obtain ⟨k, _, rfl⟩ := hp
  have h : (k, cxAcct).2.tweets = List.replicate 615385 cxTweet := rfl
  rw [h, List.length_replicate]

/-- Total tweet count of the oversized store. -/
theorem cx3_total_tweets :
    (cx3Put.accounts.map (fun p => p.2.tweets.length)).sum = 6153850 := by
  have h := sum_map_const cx3Put.accounts (fun p => p.2.tweets.length) 615385 cx3_tweets_each
  have h3 := cx3_len10
  omega

/-- The update phase of the put builds exactly the oversized store. -/
theorem cx3_upd : updatedCacheData (some cx3Pre) 0 "ua" cxAcct = cx3Put := by
  rw [updatedCacheData_some, cx3_tolower, cx3_upsert, cx3_len10, cx3_total_tweets]
  rfl

/-- The put commits the evicted store. -/
theorem cx3_commit :
    (setAccountData cx3Storage 0 "ua" cxAcct false false).cacheVal =
      some (performIntelligentCleanup 0 cx3Put) := by
  have hr1 : (getAllData cx3Storage 0 false).1 = some cx3Pre := by rw [cx3_read]
  have hr2 : (getAllData cx3Storage 0 false).2 = cx3Storage := by rw [cx3_read]
  rw [setAccountData_write_ok, hr1, hr2, cx3_upd, if_pos cx3_oversized]

/-- After keeping the top `ceil(0.7 * 10) = 7` of the ten ~8 MB
entries, the committed store still serializes to about 56 MB. -/
theorem cx3_clean_oversized :
    MAX_STORAGE_SIZE < serializedSize (performIntelligentCleanup 0 cx3Put) := by
  have hperm := List.perm_insertionSort (cleanupGe 0) cx3Put.accounts
  have hsortlen : (List.insertionSort (cleanupGe 0) cx3Put.accounts).length = 10 := by
    rw [hperm.length_eq, cx3_len10]
  have hkc : cleanupKeepCount cx3Put.accounts.length = 7 := by rw [cx3_len10]; decide
  have hacc : (performIntelligentCleanup 0 cx3Put).accounts =
      (List.insertionSort (cleanupGe 0) cx3Put.accounts).take 7 := by
    rw [cleanup_accounts_def, hkc]
  have hmem : ∀ p ∈ (List.insertionSort (cleanupGe 0) cx3Put.accounts).take 7,
      entrySerSize p = 8000071 := fun p hp =>
    cx3_entry_size p (hperm.mem_iff.mp (List.take_subset _ _ hp))
  have hsum := sum_map_const _ entrySerSize 8000071 hmem
  have htl : ((List.insertionSort (cleanupGe 0) cx3Put.accounts).take 7).length = 7 := by
    rw [List.length_take, hsortlen]; decide
  have hdef := serializedSize_def (performIntelligentCleanup 0 cx3Put)
  rw [hacc] at hdef
  have h4 : MAX_STORAGE_SIZE = 52428800 := rfl
  omega

/-- No single entry of the oversized store exceeds the storage budget. -/
theorem cx3_all_small :
    cx3Put.accounts.all (fun p => decide (entrySerSize p ≤ MAX_STORAGE_SIZE)) = true := by
  rw [List.all_eq_true]
  intro p hp
  rw [decide_eq_true_eq, cx3_entry_size p hp]
  decide

/-- C3 counterexample: a put of a tenth ~8 MB entry (every entry far
below `MAX_STORAGE_SIZE`) triggers the eviction step, which keeps the
top 7 of 10 entries and commits a store that still serializes to about
56 MB — above `MAX_STORAGE_SIZE`.  The eviction pass is not repeated
and the size is never re-checked before the write. -/
theorem eviction_size_bound_violated :
    cx3Put.accounts.all (fun p => decide (entrySerSize p ≤ MAX_STORAGE_SIZE)) = true ∧
    MAX_STORAGE_SIZE < serializedSize cx3Put ∧
    (setAccountData cx3Storage 0 "ua" cxAcct false false).cacheVal =
      some (performIntelligentCleanup 0 cx3Put) ∧
    MAX_STORAGE_SIZE < serializedSize (performIntelligentCleanup 0 cx3Put) :=
  ⟨cx3_all_small, cx3_oversized, cx3_commit, cx3_clean_oversized⟩

/-- One-entry store (key `bob`) cached before a failing put. -/
def c10Pre : MaximizedCacheData :=
  { accounts := [("bob", wAcct)]
    globalMetadata := ⟨0, "v2_maximum_collection", 1, 0, "maximum_unlimited_historical"⟩ }

/-- Valid storage holding `c10Pre`. -/
def c10Storage : Storage := { cacheVal := some c10Pre, expiryVal := some 100 }

/-- C10 counterexample: when reading the existing store throws during a
put, the failure is swallowed inside `getAllData` (which clears the old
store) and the put then proceeds and commits the new entry — so the key
that was just put is readable afterwards, refuting "get returns
not-found for every key" (only the previously cached `bob` is gone). -/
theorem put_read_failure_keeps_new_entry :
    getAccountData (setAccountData c10Storage 0 "Alice" wAcct true false) 0 "Alice"
      = some wAcct ∧
    getAccountData (setAccountData c10Storage 0 "Alice" wAcct true false) 0 "bob" = none := by
  constructor <;> decide

/-- Clearing removes both storage keys, whatever was stored. -/
theorem clearCache_eq (s : Storage) : clearCache s = ⟨none, none⟩ := rfl

/-- A put whose storage write throws ends in `clear`. -/
theorem setAccountData_write_fail (s : Storage) (now : Int) (u : String)
    (a : CachedAccountData) (rT : Bool) :
    setAccountData s now u a rT true = ⟨none, none⟩ := rfl

/-- The update phase on an empty read yields the singleton store. -/
theorem updatedCacheData_none_accounts (now : Int) (u : String) (a : CachedAccountData) :
    (updatedCacheData none now u a).accounts = [(toLowerStr u, a)] := rfl

/-- A throwing read is handled inside `getAllData`: the store is
cleared and `null` returned. -/
theorem getAllData_readThrows (s : Storage) (now : Int) :
    getAllData s now true = (none, clearCache s) := rfl

/-- C10 (amended): if the storage write of a put throws, the entire
cache is cleared — both storage keys are removed and every subsequent
`get`, of any key at any time, returns not-found.  If instead reading
the existing store throws, the failure is handled inside the read: the
old store is cleared and the put commits a store containing only the
new entry, so every key other than the one just put reads as not-found.
In neither failure case does a previously cached entry remain
readable. -/
theorem put_write_failure_clears_everything (s : Storage) (now : Int) (u : String)
    (a : CachedAccountData) (rT : Bool) (now' : Int) (u' : String) :
    (setAccountData s now u a rT true).cacheVal = none ∧
    (setAccountData s now u a rT true).expiryVal = none ∧
    getAccountData (setAccountData s now u a rT true) now' u' = none ∧
    (∀ u'' : String, toLowerStr u'' ≠ toLowerStr u →
      getAccountData (setAccountData s now u a true false) now' u'' = none) := by
  refine ⟨by rw [setAccountData_write_fail], by rw [setAccountData_write_fail], ?_, ?_⟩
  · rw [setAccountData_write_fail]
    simp [getAccountData, getAllData]
  · intro u'' hne
    have hg1 : (getAllData s now true).1 = none := by rw [getAllData_readThrows]
    have hg2 : (getAllData s now true).2 = clearCache s := by rw [getAllData_readThrows]
    rw [setAccountData_write_ok, hg1, hg2, clearCache_eq]
    have hDacc :
        (if MAX_STORAGE_SIZE < serializedSize (updatedCacheData none now u a)
          then performIntelligentCleanup now (updatedCacheData none now u a)
          else updatedCacheData none now u a).accounts = [(toLowerStr u, a)] := by
      split
      · rw [cleanup_accounts_def, updatedCacheData_none_accounts]
        simp [List.insertionSort, List.orderedInsert, cleanupKeepCount]
      · exact updatedCacheData_none_accounts now u a
    have hne' : ¬ (toLowerStr u = toLowerStr u'') := fun h => hne h.symm
    by_cases hexp : (now + CACHE_DURATION : Int) < now'
    · simp [getAccountData, getAllData, hexp]
    · simp [getAccountData, getAllData, hexp, hDacc, lookupAccount, hne']

/-- Witness for C10's amended theorem at a concrete failing put. -/
theorem put_write_failure_clears_everything_witness :
    (setAccountData c10Storage 0 "Alice" wAcct false true).cacheVal = none ∧
    getAccountData (setAccountData c10Storage 0 "Alice" wAcct false true) 0 "bob" = none ∧
    toLowerStr "bob" ≠ toLowerStr "Alice" ∧
    getAccountData (setAccountData c10Storage 0 "Alice" wAcct true false) 0 "bob" = none :=
  ⟨(put_write_failure_clears_everything c10Storage 0 "Alice" wAcct false 0 "bob").1,
    (put_write_failure_clears_everything c10Storage 0 "Alice" wAcct false 0 "bob").2.2.1,
    by decide,
    (put_write_failure_clears_everything c10Storage 0 "Alice" wAcct false 0 "bob").2.2.2
      "bob" (by decide)⟩

end GpsOp
